import Mathlib

/-!
Shallow embedding of `src/CDSK/__Lorenz84.py`.

Arrays are modelled as `List ℝ`; numpy strided slicing `X[s::3]`,
elementwise broadcasting and strided slice assignment are modelled
faithfully, with a broadcasting failure (numpy `ValueError`) rendered as
`Option.none`.  The Python forcing attribute `self.F`, which may remain
`None`, is an `Option (ℝ → ℝ)`; calling a `None` forcing (Python
`TypeError`) is also `none`.
-/

noncomputable section

namespace CDSK

/-- Numpy strided read `X[s::3]` of a 1-D array. -/
def npSlice3 (X : List ℝ) (s : Nat) : List ℝ :=
  (List.range ((X.length - s + 2) / 3)).map (fun k => X.getD (s + 3 * k) 0)

/-- Numpy elementwise binary operation on two 1-D arrays with
broadcasting: lengths must agree or one of them must be 1; otherwise a
`ValueError` (`none`). -/
def npBroadcast2 (f : ℝ → ℝ → ℝ) (A B : List ℝ) : Option (List ℝ) :=
  if A.length = B.length then some (A.zipWith f B)
  else if A.length = 1 then some (B.map (fun b => f (A.getD 0 0) b))
  else if B.length = 1 then some (A.map (fun a => f a (B.getD 0 0)))
  else none

/-- The array produced by the numpy strided assignment `dX[s::3] = V`:
positions `s, s+3, s+6, ...` receive the entries of `V` (or its single
entry, broadcast) and every other position keeps its old value. -/
def sliceWrite3 (dX : List ℝ) (s : Nat) (V : List ℝ) : List ℝ :=
  (List.range dX.length).map (fun i =>
    if s ≤ i ∧ (i - s) % 3 = 0 then
      (if V.length = 1 then V.getD 0 0 else V.getD ((i - s) / 3) 0)
    else dX.getD i 0)

/-- Numpy strided slice assignment `dX[s::3] = V`: the value's length must
equal the slice's length or be 1 (broadcast); otherwise a `ValueError`
(`none`). -/
def npSliceAssign3 (dX : List ℝ) (s : Nat) (V : List ℝ) : Option (List ℝ) :=
  if V.length = (dX.length - s + 2) / 3 ∨ V.length = 1 then
    some (sliceWrite3 dX s V)
  else none

namespace Lorenz84

/-- `TimeForcing.constant`: returns 6 whatever `t` is. -/
def TimeForcing.constant (_t : ℝ) : ℝ := 6

/-- `TimeForcing.cyclic`: `9.5 + 2. * np.sin( t * 2. * np.pi / 73. )`. -/
def TimeForcing.cyclic (t : ℝ) : ℝ :=
  9.5 + 2 * Real.sin (t * 2 * Real.pi / 73)

/-- `TimeForcing.linear`: `0 if t < tcc else -2 * ( t - tcc ) / tcc`. -/
def TimeForcing.linear (t tcc : ℝ) : ℝ :=
  if t < tcc then 0 else -2 * (t - tcc) / tcc

/-- Default value of the `tcc` argument of `TimeForcing.linear`. -/
def TimeForcing.linearDefaultStart : ℝ := 100 * 73

/-- The forcing specification `F` given to the constructor: a Python value
that is either callable, a string, or anything else (`None` included). -/
inductive ForcingSpec where
  | callable (f : ℝ → ℝ)
  | str (s : String)
  | other

end Lorenz84

/-- The `Lorenz84` object: parameters fixed by `__init__`.  `F` is the
resolved forcing attribute; it stays `none` exactly when the Python code
leaves `self.F = None`. -/
structure Lorenz84 where
  dim : Nat
  size : Nat
  bounds : List (List ℝ)
  a : ℝ
  b : ℝ
  G : ℝ
  F : Option (ℝ → ℝ)

namespace Lorenz84

/-- `Lorenz84.__init__`: stores `a`, `b`, `G`, fixes `dim = 3` and the
bounds box, and resolves the forcing specification exactly as the source
does (callable first, then the three string tokens, constant for every
non-callable non-string value, `None` for an unrecognized string). -/
def init (a b G : ℝ) (F : ForcingSpec) (size : Nat) : Lorenz84 :=
  { dim := 3
    size := size
    bounds := [[-1, -3, -3], [3, 3, 3]]
    a := a
    b := b
    G := G
    F :=
      match F with
      | .callable f => some f
      | .str s =>
          if s = "cyclic" then some TimeForcing.cyclic
          else if s = "linear" then
            some (fun t => TimeForcing.linear t TimeForcing.linearDefaultStart)
          else if s = "cyclic-linear" then
            some (fun t => TimeForcing.cyclic t
              + TimeForcing.linear t TimeForcing.linearDefaultStart)
          else none
      | .other => some TimeForcing.constant }

/-- `Lorenz84._equation`: `dX = np.zeros(X.shape)` followed by the three
strided assignments of the source, line by line; any numpy failure
(broadcast mismatch, or `self.F` being `None` when called) is `none`. -/
def _equation (m : Lorenz84) (X : List ℝ) (t : ℝ) : Option (List ℝ) := do
  let f ← m.F
  let X0 := npSlice3 X 0
  let X1 := npSlice3 X 1
  let X2 := npSlice3 X 2
  let dX0 := List.replicate X.length (0 : ℝ)
  let e1a ← npBroadcast2 (fun u v => u - v)
    (X1.map (fun v => -(v ^ 2))) (X2.map (fun v => v ^ 2))
  let e1b ← npBroadcast2 (fun u v => u - v) e1a (X0.map (fun v => m.a * v))
  let e1 := e1b.map (fun v => v + m.a * f t)
  let dX1 ← npSliceAssign3 dX0 0 e1
  let e2a ← npBroadcast2 (fun u v => u * v) X0 X1
  let e2b ← npBroadcast2 (fun u v => u * v) (X0.map (fun v => m.b * v)) X2
  let e2c ← npBroadcast2 (fun u v => u - v) e2a e2b
  let e2d ← npBroadcast2 (fun u v => u - v) e2c X1
  let e2 := e2d.map (fun v => v + m.G)
  let dX2 ← npSliceAssign3 dX1 1 e2
  let e3a ← npBroadcast2 (fun u v => u * v) X0 X2
  let e3b ← npBroadcast2 (fun u v => u * v) (X0.map (fun v => m.b * v)) X1
  let e3c ← npBroadcast2 (fun u v => u + v) e3a e3b
  let e3 ← npBroadcast2 (fun u v => u - v) e3c X2
  let dX3 ← npSliceAssign3 dX2 2 e3
  pure dX3

end Lorenz84

theorem npSlice3_length (X : List ℝ) (s : Nat) :
    (npSlice3 X s).length = (X.length - s + 2) / 3 := by
  simp [npSlice3]

theorem npSlice3_getD (X : List ℝ) (s k : Nat) (h : s + 3 * k < X.length) :
    (npSlice3 X s).getD k 0 = X.getD (s + 3 * k) 0 := by
  have hk : k < (X.length - s + 2) / 3 := by omega
  simp [npSlice3, List.getD_eq_getElem?_getD, List.getElem?_map,
    List.getElem?_range, hk]

theorem map_getD (f : ℝ → ℝ) (A : List ℝ) (i : Nat) (hi : i < A.length) :
    (A.map f).getD i 0 = f (A.getD i 0) := by
  rw [List.getD_eq_getElem _ _ (by simpa using hi),
    List.getD_eq_getElem _ _ hi, List.getElem_map]

theorem zipWith_getD (f : ℝ → ℝ → ℝ) (A B : List ℝ) (i : Nat)
    (hA : i < A.length) (hB : i < B.length) :
    (A.zipWith f B).getD i 0 = f (A.getD i 0) (B.getD i 0) := by
  rw [List.getD_eq_getElem _ _ (by simp [List.length_zipWith]; omega),
    List.getD_eq_getElem _ _ hA, List.getD_eq_getElem _ _ hB,
    List.getElem_zipWith]

theorem npBroadcast2_eq_length (f : ℝ → ℝ → ℝ) (A B : List ℝ)
    (h : A.length = B.length) :
    npBroadcast2 f A B = some (A.zipWith f B) := by
  simp [npBroadcast2, h]

theorem sliceWrite3_length (dX V : List ℝ) (s : Nat) :
    (sliceWrite3 dX s V).length = dX.length := by
  simp [sliceWrite3]

theorem sliceWrite3_getD_slice (dX V : List ℝ) (s k : Nat)
    (hk : s + 3 * k < dX.length)
    (hV : V.length = (dX.length - s + 2) / 3) :
    (sliceWrite3 dX s V).getD (s + 3 * k) 0 = V.getD k 0 := by
  have hcond : s ≤ s + 3 * k ∧ (s + 3 * k - s) % 3 = 0 := by omega
  rw [sliceWrite3, List.getD_eq_getElem _ _ (by simpa using hk)]
  simp only [List.getElem_map, List.getElem_range, hcond, and_self, if_true]
  by_cases h1 : V.length = 1
  · have : k = 0 := by omega
    simp [this, h1]
  · simp [h1]

theorem sliceWrite3_getD_skip (dX V : List ℝ) (s i : Nat)
    (hi : i < dX.length) (hskip : i < s ∨ (i - s) % 3 ≠ 0) :
    (sliceWrite3 dX s V).getD i 0 = dX.getD i 0 := by
  have hcond : ¬(s ≤ i ∧ (i - s) % 3 = 0) := by omega
  rw [sliceWrite3, List.getD_eq_getElem _ _ (by simpa using hi)]
  simp only [List.getElem_map, List.getElem_range, hcond, if_false]

theorem npSliceAssign3_of_eq (dX V : List ℝ) (s : Nat)
    (h : V.length = (dX.length - s + 2) / 3) :
    npSliceAssign3 dX s V = some (sliceWrite3 dX s V) := by
  simp [npSliceAssign3, h]

theorem npSliceAssign3_length (dX V R : List ℝ) (s : Nat)
    (h : npSliceAssign3 dX s V = some R) : R.length = dX.length := by
  unfold npSliceAssign3 at h
  split at h
  · cases h
    exact sliceWrite3_length dX V s
  · cases h

theorem equation_norm (m : Lorenz84) (f : ℝ → ℝ) (hF : m.F = some f)
    (N : Nat) (X : List ℝ) (hX : X.length = 3 * N) (t : ℝ) :
    m._equation X t = some (sliceWrite3 (sliceWrite3 (sliceWrite3
      (List.replicate X.length 0) 0
      (List.map (fun v => v + m.a * f t)
        (List.zipWith (fun u v => u - v)
          (List.zipWith (fun u v => u - v)
            (List.map (fun v => -(v ^ 2)) (npSlice3 X 1))
            (List.map (fun v => v ^ 2) (npSlice3 X 2)))
          (List.map (fun v => m.a * v) (npSlice3 X 0))))) 1
      (List.map (fun v => v + m.G)
        (List.zipWith (fun u v => u - v)
          (List.zipWith (fun u v => u - v)
            (List.zipWith (fun u v => u * v) (npSlice3 X 0) (npSlice3 X 1))
            (List.zipWith (fun u v => u * v)
              (List.map (fun v => m.b * v) (npSlice3 X 0)) (npSlice3 X 2)))
          (npSlice3 X 1)))) 2
      (List.zipWith (fun u v => u - v)
        (List.zipWith (fun u v => u + v)
          (List.zipWith (fun u v => u * v) (npSlice3 X 0) (npSlice3 X 2))
          (List.zipWith (fun u v => u * v)
            (List.map (fun v => m.b * v) (npSlice3 X 0)) (npSlice3 X 1)))
        (npSlice3 X 2))) := by
  have h0 : (npSlice3 X 0).length = N := by rw [npSlice3_length, hX]; omega
  have h1 : (npSlice3 X 1).length = N := by rw [npSlice3_length, hX]; omega
  have h2 : (npSlice3 X 2).length = N := by rw [npSlice3_length, hX]; omega
  have hq0 : (3 * N + 2) / 3 = N := by omega
  have hq1 : (3 * N - 1 + 2) / 3 = N := by omega
  have hq2 : (3 * N - 2 + 2) / 3 = N := by omega
  simp only [Lorenz84._equation, hF, Option.bind_eq_bind, Option.some_bind,
    Option.pure_def,
    npBroadcast2_eq_length, npSliceAssign3_of_eq, List.length_map,
    List.length_zipWith, List.length_replicate, sliceWrite3_length,
    h0, h1, h2, hX, hq0, hq1, hq2, Nat.sub_zero, Nat.min_self]

theorem write3_getD_a (L E1 E2 E3 : List ℝ) (i : Nat)
    (hL1 : L.length = 3 * E1.length) (hL2 : L.length = 3 * E2.length)
    (hL3 : L.length = 3 * E3.length) (hi : i < E1.length) :
    (sliceWrite3 (sliceWrite3 (sliceWrite3 L 0 E1) 1 E2) 2 E3).getD (3 * i) 0
      = E1.getD i 0 := by
  have hW1 : (sliceWrite3 L 0 E1).length = L.length := sliceWrite3_length _ _ _
  have hW2 : (sliceWrite3 (sliceWrite3 L 0 E1) 1 E2).length = L.length := by
    rw [sliceWrite3_length, sliceWrite3_length]
  have s2 := sliceWrite3_getD_skip (sliceWrite3 (sliceWrite3 L 0 E1) 1 E2) E3 2
    (3 * i) (by omega) (by omega)
  have s1 := sliceWrite3_getD_skip (sliceWrite3 L 0 E1) E2 1 (3 * i)
    (by omega) (by omega)
  have s0 := sliceWrite3_getD_slice L E1 0 i (by omega) (by omega)
  rw [s2, s1]
  simpa using s0

theorem write3_getD_b (L E1 E2 E3 : List ℝ) (i : Nat)
    (hL1 : L.length = 3 * E1.length) (hL2 : L.length = 3 * E2.length)
    (hL3 : L.length = 3 * E3.length) (hi : i < E2.length) :
    (sliceWrite3 (sliceWrite3 (sliceWrite3 L 0 E1) 1 E2) 2 E3).getD
      (3 * i + 1) 0 = E2.getD i 0 := by
  have hW1 : (sliceWrite3 L 0 E1).length = L.length := sliceWrite3_length _ _ _
  have hW2 : (sliceWrite3 (sliceWrite3 L 0 E1) 1 E2).length = L.length := by
    rw [sliceWrite3_length, sliceWrite3_length]
  have s2 := sliceWrite3_getD_skip (sliceWrite3 (sliceWrite3 L 0 E1) 1 E2) E3 2
    (3 * i + 1) (by omega) (by omega)
  have s1 := sliceWrite3_getD_slice (sliceWrite3 L 0 E1) E2 1 i
    (by omega) (by omega)
  rw [s2]
  rw [Nat.add_comm 1 (3 * i)] at s1
  exact s1

theorem write3_getD_c (L E1 E2 E3 : List ℝ) (i : Nat)
    (hL1 : L.length = 3 * E1.length) (hL2 : L.length = 3 * E2.length)
    (hL3 : L.length = 3 * E3.length) (hi : i < E3.length) :
    (sliceWrite3 (sliceWrite3 (sliceWrite3 L 0 E1) 1 E2) 2 E3).getD
      (3 * i + 2) 0 = E3.getD i 0 := by
  have hW1 : (sliceWrite3 L 0 E1).length = L.length := sliceWrite3_length _ _ _
  have hW2 : (sliceWrite3 (sliceWrite3 L 0 E1) 1 E2).length = L.length := by
    rw [sliceWrite3_length, sliceWrite3_length]
  have s2 := sliceWrite3_getD_slice (sliceWrite3 (sliceWrite3 L 0 E1) 1 E2) E3 2
    i (by omega) (by omega)
  rw [Nat.add_comm 2 (3 * i)] at s2
  exact s2

theorem equation_spec (m : Lorenz84) (f : ℝ → ℝ) (hF : m.F = some f)
    (N : Nat) (X : List ℝ) (hX : X.length = 3 * N) (t : ℝ) :
    ∃ dX, m._equation X t = some dX ∧ dX.length = 3 * N ∧
      ∀ i, i < N →
        dX.getD (3 * i) 0
          = -X.getD (3 * i + 1) 0 ^ 2 - X.getD (3 * i + 2) 0 ^ 2
            - m.a * X.getD (3 * i) 0 + m.a * f t ∧
        dX.getD (3 * i + 1) 0
          = X.getD (3 * i) 0 * X.getD (3 * i + 1) 0
            - m.b * X.getD (3 * i) 0 * X.getD (3 * i + 2) 0
            - X.getD (3 * i + 1) 0 + m.G ∧
        dX.getD (3 * i + 2) 0
          = X.getD (3 * i) 0 * X.getD (3 * i + 2) 0
            + m.b * X.getD (3 * i) 0 * X.getD (3 * i + 1) 0
            - X.getD (3 * i + 2) 0 := by
  have h0 : (npSlice3 X 0).length = N := by rw [npSlice3_length, hX]; omega
  have h1 : (npSlice3 X 1).length = N := by rw [npSlice3_length, hX]; omega
  have h2 : (npSlice3 X 2).length = N := by rw [npSlice3_length, hX]; omega
  have hg0 : ∀ i, i < N → (npSlice3 X 0).getD i 0 = X.getD (3 * i) 0 := by
    intro i hi
    have h := npSlice3_getD X 0 i (by omega)
    simpa using h
  have hg1 : ∀ i, i < N → (npSlice3 X 1).getD i 0 = X.getD (3 * i + 1) 0 := by
    intro i hi
    have h := npSlice3_getD X 1 i (by omega)
    rwa [Nat.add_comm 1 (3 * i)] at h
  have hg2 : ∀ i, i < N → (npSlice3 X 2).getD i 0 = X.getD (3 * i + 2) 0 := by
    intro i hi
    have h := npSlice3_getD X 2 i (by omega)
    rwa [Nat.add_comm 2 (3 * i)] at h
  refine ⟨_, equation_norm m f hF N X hX t, ?_, ?_⟩
  · simp [sliceWrite3_length, hX]
  · intro i hi
    simp only [write3_getD_a, write3_getD_b, write3_getD_c, map_getD,
      zipWith_getD, List.length_map, List.length_zipWith,
      List.length_replicate, Nat.min_self, hX, h0, h1, h2, hg0, hg1, hg2, hi,
      and_self, and_true, true_and]

theorem equation_length (m : Lorenz84) (X : List ℝ) (t : ℝ) (dX : List ℝ)
    (h : m._equation X t = some dX) : dX.length = X.length := by
  unfold Lorenz84._equation at h
  cases hf : m.F with
  | none =>
    rw [hf] at h
    simp at h
  | some f =>
    rw [hf] at h
    simp only [Option.bind_eq_bind, Option.some_bind, Option.pure_def] at h
    rw [Option.bind_eq_some] at h
    obtain ⟨e1a, -, h⟩ := h
    rw [Option.bind_eq_some] at h
    obtain ⟨e1b, -, h⟩ := h
    rw [Option.bind_eq_some] at h
    obtain ⟨dX1, hdX1, h⟩ := h
    rw [Option.bind_eq_some] at h
    obtain ⟨e2a, -, h⟩ := h
    rw [Option.bind_eq_some] at h
    obtain ⟨e2b, -, h⟩ := h
    rw [Option.bind_eq_some] at h
    obtain ⟨e2c, -, h⟩ := h
    rw [Option.bind_eq_some] at h
    obtain ⟨e2d, -, h⟩ := h
    rw [Option.bind_eq_some] at h
    obtain ⟨dX2, hdX2, h⟩ := h
    rw [Option.bind_eq_some] at h
    obtain ⟨e3a, -, h⟩ := h
    rw [Option.bind_eq_some] at h
    obtain ⟨e3b, -, h⟩ := h
    rw [Option.bind_eq_some] at h
    obtain ⟨e3c, -, h⟩ := h
    rw [Option.bind_eq_some] at h
    obtain ⟨e3, -, h⟩ := h
    rw [Option.bind_eq_some] at h
    obtain ⟨dX3, hdX3, h⟩ := h
    cases h
    have l1 := npSliceAssign3_length _ _ _ _ hdX1
    have l2 := npSliceAssign3_length _ _ _ _ hdX2
    have l3 := npSliceAssign3_length _ _ _ _ hdX3
    simp only [List.length_replicate] at l1
    omega

theorem length_eq_six (l : List ℝ) (h : l.length = 6) :
    ∃ p q r u v w, l = [p, q, r, u, v, w] := by
  obtain ⟨p, l, rfl⟩ := List.exists_of_length_succ l (by omega : l.length = 5 + 1)
  simp only [List.length_cons] at h
  obtain ⟨q, l, rfl⟩ := List.exists_of_length_succ l (by omega : l.length = 4 + 1)
  simp only [List.length_cons] at h
  obtain ⟨r, l, rfl⟩ := List.exists_of_length_succ l (by omega : l.length = 3 + 1)
  simp only [List.length_cons] at h
  obtain ⟨u, l, rfl⟩ := List.exists_of_length_succ l (by omega : l.length = 2 + 1)
  simp only [List.length_cons] at h
  obtain ⟨v, l, rfl⟩ := List.exists_of_length_succ l (by omega : l.length = 1 + 1)
  simp only [List.length_cons] at h
  obtain ⟨w, l, rfl⟩ := List.exists_of_length_succ l (by omega : l.length = 0 + 1)
  simp only [List.length_cons] at h
  have hnil : l = [] := List.length_eq_zero.mp (by omega)
  subst hnil
  exact ⟨p, q, r, u, v, w, rfl⟩

theorem equation_single (m : Lorenz84) (f : ℝ → ℝ) (hF : m.F = some f)
    (x y z t : ℝ) :
    m._equation [x, y, z] t = some
      [-y ^ 2 - z ^ 2 - m.a * x + m.a * f t,
       x * y - m.b * x * z - y + m.G,
       x * z + m.b * x * y - z] := by
  obtain ⟨dX, hEq, hLen, hPt⟩ := equation_spec m f hF 1 [x, y, z] (by norm_num) t
  obtain ⟨h0, h1, h2⟩ := hPt 0 (by norm_num)
  have hLen3 : dX.length = 3 := by omega
  rw [List.length_eq_three] at hLen3
  obtain ⟨p, q, r, rfl⟩ := hLen3
  have e0 : p = -y ^ 2 - z ^ 2 - m.a * x + m.a * f t := h0
  have e1 : q = x * y - m.b * x * z - y + m.G := h1
  have e2 : r = x * z + m.b * x * y - z := h2
  rw [hEq, e0, e1, e2]

theorem equation_pair (m : Lorenz84) (f : ℝ → ℝ) (hF : m.F = some f)
    (x0 y0 z0 x1 y1 z1 t : ℝ) :
    m._equation [x0, y0, z0, x1, y1, z1] t = some
      [-y0 ^ 2 - z0 ^ 2 - m.a * x0 + m.a * f t,
       x0 * y0 - m.b * x0 * z0 - y0 + m.G,
       x0 * z0 + m.b * x0 * y0 - z0,
       -y1 ^ 2 - z1 ^ 2 - m.a * x1 + m.a * f t,
       x1 * y1 - m.b * x1 * z1 - y1 + m.G,
       x1 * z1 + m.b * x1 * y1 - z1] := by
  obtain ⟨dX, hEq, hLen, hPt⟩ :=
    equation_spec m f hF 2 [x0, y0, z0, x1, y1, z1] (by norm_num) t
  obtain ⟨h0, h1, h2⟩ := hPt 0 (by norm_num)
  obtain ⟨h3, h4, h5⟩ := hPt 1 (by norm_num)
  obtain ⟨p, q, r, u, v, w, rfl⟩ := length_eq_six dX (by omega)
  have e0 : p = -y0 ^ 2 - z0 ^ 2 - m.a * x0 + m.a * f t := h0
  have e1 : q = x0 * y0 - m.b * x0 * z0 - y0 + m.G := h1
  have e2 : r = x0 * z0 + m.b * x0 * y0 - z0 := h2
  have e3 : u = -y1 ^ 2 - z1 ^ 2 - m.a * x1 + m.a * f t := h3
  have e4 : v = x1 * y1 - m.b * x1 * z1 - y1 + m.G := h4
  have e5 : w = x1 * z1 + m.b * x1 * y1 - z1 := h5
  rw [hEq, e0, e1, e2, e3, e4, e5]

/-- C1: for every model with a resolved forcing `f`, every packed state of
length `3*N` and every time `t`, `_equation` succeeds and returns at flat
indices `3i`, `3i+1`, `3i+2` exactly
`dx_i = -y_i^2 - z_i^2 - a*x_i + a*f(t)`,
`dy_i = x_i*y_i - b*x_i*z_i - y_i + G`,
`dz_i = x_i*z_i + b*x_i*y_i - z_i`. -/
theorem C1_derivative_formula (m : Lorenz84) (f : ℝ → ℝ) (hF : m.F = some f)
    (N : Nat) (X : List ℝ) (hX : X.length = 3 * N) (t : ℝ) :
    ∃ dX, m._equation X t = some dX ∧ dX.length = 3 * N ∧
      ∀ i, i < N →
        dX.getD (3 * i) 0
          = -X.getD (3 * i + 1) 0 ^ 2 - X.getD (3 * i + 2) 0 ^ 2
            - m.a * X.getD (3 * i) 0 + m.a * f t ∧
        dX.getD (3 * i + 1) 0
          = X.getD (3 * i) 0 * X.getD (3 * i + 1) 0
            - m.b * X.getD (3 * i) 0 * X.getD (3 * i + 2) 0
            - X.getD (3 * i + 1) 0 + m.G ∧
        dX.getD (3 * i + 2) 0
          = X.getD (3 * i) 0 * X.getD (3 * i + 2) 0
            + m.b * X.getD (3 * i) 0 * X.getD (3 * i + 1) 0
            - X.getD (3 * i + 2) 0 :=
  equation_spec m f hF N X hX t

/-- C1 witness: the hypotheses of `C1_derivative_formula` are satisfied at a
concrete model and state. -/
theorem C1_witness :
    ∃ dX, (Lorenz84.init 0.25 4 1 Lorenz84.ForcingSpec.other 1)._equation
      [1, 2, 3] 0 = some dX ∧ dX.length = 3 * 1 := by
  obtain ⟨dX, h1, h2, -⟩ := C1_derivative_formula
    (Lorenz84.init 0.25 4 1 Lorenz84.ForcingSpec.other 1)
    Lorenz84.TimeForcing.constant rfl 1 [1, 2, 3] (by norm_num) 0
  exact ⟨dX, h1, h2⟩

/-- C2: the derivative of the packed two-orbit state is the concatenation
of the two single-orbit derivatives at the same time; orbits do not
influence each other. -/
theorem C2_multi_orbit_independence (m : Lorenz84) (f : ℝ → ℝ)
    (hF : m.F = some f) (x0 y0 z0 x1 y1 z1 t : ℝ) :
    ∃ d0 d1, m._equation [x0, y0, z0] t = some d0 ∧
      m._equation [x1, y1, z1] t = some d1 ∧ d0.length = 3 ∧ d1.length = 3 ∧
      m._equation [x0, y0, z0, x1, y1, z1] t = some (d0 ++ d1) := by
  refine ⟨_, _, equation_single m f hF x0 y0 z0 t,
    equation_single m f hF x1 y1 z1 t, by norm_num, by norm_num, ?_⟩
  rw [equation_pair m f hF x0 y0 z0 x1 y1 z1 t]
  rfl

/-- C2 witness: `C2_multi_orbit_independence` at a concrete model, concrete
orbit states and time. -/
theorem C2_witness :
    ∃ d0 d1, (Lorenz84.init 0.25 4 1 Lorenz84.ForcingSpec.other 1)._equation
        [1, 0, 0] 0 = some d0 ∧
      (Lorenz84.init 0.25 4 1 Lorenz84.ForcingSpec.other 1)._equation
        [0, 1, 0] 0 = some d1 ∧ d0.length = 3 ∧ d1.length = 3 ∧
      (Lorenz84.init 0.25 4 1 Lorenz84.ForcingSpec.other 1)._equation
        [1, 0, 0, 0, 1, 0] 0 = some (d0 ++ d1) :=
  C2_multi_orbit_independence _ Lorenz84.TimeForcing.constant rfl 1 0 0 0 1 0 0

/-- C3 counterexample: the claim says every non-callable, non-token forcing
specification — unrecognized strings included — resolves to
`TimeForcing.constant`; but for the unrecognized string "bogus" the
constructor leaves the forcing attribute `None`. -/
theorem C3_counterexample :
    (Lorenz84.init 0.25 4 1 (Lorenz84.ForcingSpec.str "bogus") 1).F = none ∧
      (Lorenz84.init 0.25 4 1 (Lorenz84.ForcingSpec.str "bogus") 1).F
        ≠ some Lorenz84.TimeForcing.constant := by
  refine ⟨rfl, ?_⟩
  intro h
  rw [show (Lorenz84.init 0.25 4 1 (Lorenz84.ForcingSpec.str "bogus") 1).F
    = none from rfl] at h
  exact Option.noConfusion h

/-- C3 amended: every non-callable, non-string forcing specification
(`F` absent included) resolves to `TimeForcing.constant`; a string that is
not one of the three tokens instead leaves the forcing attribute `None`. -/
theorem C3_amended_fallback (a b G : ℝ) (size : Nat) :
    (Lorenz84.init a b G Lorenz84.ForcingSpec.other size).F
        = some Lorenz84.TimeForcing.constant ∧
      ∀ s : String, s ≠ "cyclic" → s ≠ "linear" → s ≠ "cyclic-linear" →
        (Lorenz84.init a b G (Lorenz84.ForcingSpec.str s) size).F = none := by
  refine ⟨rfl, ?_⟩
  intro s h1 h2 h3
  simp [Lorenz84.init, h1, h2, h3]

/-- C3 witness: `C3_amended_fallback` at concrete parameters and the
concrete unrecognized string "bogus". -/
theorem C3_amended_witness :
    (Lorenz84.init 0.25 4 1 Lorenz84.ForcingSpec.other 1).F
        = some Lorenz84.TimeForcing.constant ∧
      (Lorenz84.init 0.25 4 1 (Lorenz84.ForcingSpec.str "bogus") 1).F
        = none :=
  ⟨(C3_amended_fallback 0.25 4 1 1).1,
   (C3_amended_fallback 0.25 4 1 1).2 "bogus" (by decide) (by decide)
     (by decide)⟩

/-- C4 counterexample: the claim says a state whose length differs from
`3*N` makes the derivative fail with a ShapeMismatch; but on a model
constructed with one orbit (`size = 1`, so `3*N = 3`) a state of length 6
is processed without any failure and a full length-6 derivative is
returned. -/
theorem C4_counterexample :
    (Lorenz84.init 0.25 4 1 Lorenz84.ForcingSpec.other 1).size = 1 ∧
      (Lorenz84.init 0.25 4 1 Lorenz84.ForcingSpec.other 1)._equation
        [0, 0, 0, 0, 0, 0] 0 = some [1.5, 1, 0, 1.5, 1, 0] := by
  refine ⟨rfl, ?_⟩
  rw [equation_pair _ Lorenz84.TimeForcing.constant rfl 0 0 0 0 0 0 0]
  norm_num [Lorenz84.init, Lorenz84.TimeForcing.constant]

/-- C4 amended: `_equation` performs no length check against `3*N` at all:
for every state whose length is a multiple of 3 — equal to `3*N` or not —
it succeeds and returns a fresh derivative of the same length (nothing is
truncated or padded); only states whose length is not handled by the
strided broadcasting can fail. -/
theorem C4_amended_no_shape_check (m : Lorenz84) (f : ℝ → ℝ)
    (hF : m.F = some f) (M : Nat) (X : List ℝ) (hX : X.length = 3 * M)
    (t : ℝ) :
    ∃ dX, m._equation X t = some dX ∧ dX.length = X.length := by
  obtain ⟨dX, h1, h2, -⟩ := equation_spec m f hF M X hX t
  exact ⟨dX, h1, by omega⟩

/-- C4 witness: `C4_amended_no_shape_check` on a one-orbit model with a
length-6 state. -/
theorem C4_amended_witness :
    ∃ dX, (Lorenz84.init 0.25 4 1 Lorenz84.ForcingSpec.other 1)._equation
        [0, 0, 0, 0, 0, 0] 0 = some dX ∧
      dX.length = ([0, 0, 0, 0, 0, 0] : List ℝ).length :=
  C4_amended_no_shape_check _ Lorenz84.TimeForcing.constant rfl 2
    [0, 0, 0, 0, 0, 0] (by norm_num) 0

/-- C5: a string forcing specification that is none of the three tokens
leaves the forcing attribute `None`, and every subsequent derivative call
fails; the constant fallback is reserved for non-callable, non-string
specifications (a callable resolves to itself). -/
theorem C5_unrecognized_string_leaves_forcing_none (a b G : ℝ) (size : Nat)
    (s : String) (h1 : s ≠ "cyclic") (h2 : s ≠ "linear")
    (h3 : s ≠ "cyclic-linear") :
    (Lorenz84.init a b G (Lorenz84.ForcingSpec.str s) size).F = none ∧
      (∀ X t, (Lorenz84.init a b G (Lorenz84.ForcingSpec.str s) size)._equation
        X t = none) ∧
      ∀ g : ℝ → ℝ,
        (Lorenz84.init a b G (Lorenz84.ForcingSpec.callable g) size).F
          = some g := by
  have hN : (Lorenz84.init a b G (Lorenz84.ForcingSpec.str s) size).F
      = none := by
    simp [Lorenz84.init, h1, h2, h3]
  refine ⟨hN, fun X t => ?_, fun g => rfl⟩
  unfold Lorenz84._equation
  rw [hN]
  rfl

/-- C5 witness: `C5_unrecognized_string_leaves_forcing_none` at concrete
parameters and the concrete unrecognized string "bogus". -/
theorem C5_witness :
    (Lorenz84.init 0.25 4 1 (Lorenz84.ForcingSpec.str "bogus") 1).F = none ∧
      (∀ X t, (Lorenz84.init 0.25 4 1
        (Lorenz84.ForcingSpec.str "bogus") 1)._equation X t = none) ∧
      ∀ g : ℝ → ℝ,
        (Lorenz84.init 0.25 4 1 (Lorenz84.ForcingSpec.callable g) 1).F
          = some g :=
  C5_unrecognized_string_leaves_forcing_none 0.25 4 1 1 "bogus"
    (by decide) (by decide) (by decide)

/-- C6: whenever `_equation` returns a derivative, its length equals the
input state's length; in this value-level embedding the evaluation is a
pure function of the model, state and time, so the input list and the
model parameters are untouched by construction. -/
theorem C6_output_length (m : Lorenz84) (X : List ℝ) (t : ℝ) (dX : List ℝ)
    (h : m._equation X t = some dX) : dX.length = X.length :=
  equation_length m X t dX h

/-- C6 witness: `C6_output_length` at a concrete evaluation. -/
theorem C6_witness :
    (Lorenz84.init 0.25 4 1 Lorenz84.ForcingSpec.other 1)._equation
        [0, 0, 0] 0 = some [1.5, 1, 0] ∧
      ([1.5, 1, 0] : List ℝ).length = ([0, 0, 0] : List ℝ).length := by
  have hc : (Lorenz84.init 0.25 4 1 Lorenz84.ForcingSpec.other 1)._equation
      [0, 0, 0] 0 = some [1.5, 1, 0] := by
    rw [equation_single _ Lorenz84.TimeForcing.constant rfl 0 0 0 0]
    norm_num [Lorenz84.init, Lorenz84.TimeForcing.constant]
  exact ⟨hc, C6_output_length _ _ _ _ hc⟩

/-- C7: the forcing resolved for the token "cyclic-linear" is pointwise
the sum of `TimeForcing.cyclic` and `TimeForcing.linear` (at its default
start time). -/
theorem C7_cyclic_linear_sum (a b G : ℝ) (size : Nat) :
    ∃ f, (Lorenz84.init a b G
        (Lorenz84.ForcingSpec.str "cyclic-linear") size).F = some f ∧
      ∀ t, f t = Lorenz84.TimeForcing.cyclic t
        + Lorenz84.TimeForcing.linear t
          Lorenz84.TimeForcing.linearDefaultStart := by
  refine ⟨fun t => Lorenz84.TimeForcing.cyclic t
    + Lorenz84.TimeForcing.linear t Lorenz84.TimeForcing.linearDefaultStart,
    ?_, fun t => rfl⟩
  rfl

/-- C8: with the default start time `100*73`, `TimeForcing.linear` is 0
strictly before the start time and at it, equals
`-2*(t - startTime)/startTime` after it, and is strictly decreasing
past the start time. -/
theorem C8_linear_ramp :
    Lorenz84.TimeForcing.linearDefaultStart = 100 * 73 ∧
    (∀ t : ℝ, t < Lorenz84.TimeForcing.linearDefaultStart →
      Lorenz84.TimeForcing.linear t Lorenz84.TimeForcing.linearDefaultStart
        = 0) ∧
    Lorenz84.TimeForcing.linear Lorenz84.TimeForcing.linearDefaultStart
      Lorenz84.TimeForcing.linearDefaultStart = 0 ∧
    (∀ t : ℝ, Lorenz84.TimeForcing.linearDefaultStart < t →
      Lorenz84.TimeForcing.linear t Lorenz84.TimeForcing.linearDefaultStart
        = -2 * (t - Lorenz84.TimeForcing.linearDefaultStart)
            / Lorenz84.TimeForcing.linearDefaultStart) ∧
    (∀ t1 t2 : ℝ, Lorenz84.TimeForcing.linearDefaultStart < t1 → t1 < t2 →
      Lorenz84.TimeForcing.linear t2 Lorenz84.TimeForcing.linearDefaultStart
        < Lorenz84.TimeForcing.linear t1
            Lorenz84.TimeForcing.linearDefaultStart) := by
  have hs : (0 : ℝ) < Lorenz84.TimeForcing.linearDefaultStart := by
    norm_num [Lorenz84.TimeForcing.linearDefaultStart]
  refine ⟨by norm_num [Lorenz84.TimeForcing.linearDefaultStart],
    ?_, ?_, ?_, ?_⟩
  · intro t ht
    unfold Lorenz84.TimeForcing.linear
    rw [if_pos ht]
  · unfold Lorenz84.TimeForcing.linear
    rw [if_neg (lt_irrefl _)]
    norm_num
  · intro t ht
    unfold Lorenz84.TimeForcing.linear
    rw [if_neg (not_lt.mpr (le_of_lt ht))]
  · intro t1 t2 h1 h2
    unfold Lorenz84.TimeForcing.linear
    rw [if_neg (not_lt.mpr (le_of_lt h1)),
      if_neg (not_lt.mpr (le_of_lt (lt_trans h1 h2)))]
    exact (div_lt_div_iff_of_pos_right hs).mpr (by linarith)

/-- C8 witness: `C8_linear_ramp` evaluated before the default start time
and at two points after it. -/
theorem C8_witness :
    Lorenz84.TimeForcing.linear 0 Lorenz84.TimeForcing.linearDefaultStart
        = 0 ∧
      Lorenz84.TimeForcing.linear 14600
          Lorenz84.TimeForcing.linearDefaultStart
        = -2 * (14600 - Lorenz84.TimeForcing.linearDefaultStart)
            / Lorenz84.TimeForcing.linearDefaultStart ∧
      Lorenz84.TimeForcing.linear 14601
          Lorenz84.TimeForcing.linearDefaultStart
        < Lorenz84.TimeForcing.linear 14600
            Lorenz84.TimeForcing.linearDefaultStart :=
  ⟨C8_linear_ramp.2.1 0
      (by norm_num [Lorenz84.TimeForcing.linearDefaultStart]),
   C8_linear_ramp.2.2.2.1 14600
      (by norm_num [Lorenz84.TimeForcing.linearDefaultStart]),
   C8_linear_ramp.2.2.2.2 14600 14601
      (by norm_num [Lorenz84.TimeForcing.linearDefaultStart]) (by norm_num)⟩

/-- C9: `TimeForcing.cyclic t = 9.5 + 2*sin(2*pi*t/73)` and it is periodic
with period 73. -/
theorem C9_cyclic_formula_periodic :
    (∀ t : ℝ, Lorenz84.TimeForcing.cyclic t
        = 9.5 + 2 * Real.sin (2 * Real.pi * t / 73)) ∧
      ∀ t : ℝ, Lorenz84.TimeForcing.cyclic (t + 73)
        = Lorenz84.TimeForcing.cyclic t := by
  constructor
  · intro t
    unfold Lorenz84.TimeForcing.cyclic
    rw [show t * 2 * Real.pi / 73 = 2 * Real.pi * t / 73 from by ring]
  · intro t
    unfold Lorenz84.TimeForcing.cyclic
    rw [show (t + 73) * 2 * Real.pi / 73
        = t * 2 * Real.pi / 73 + 2 * Real.pi from by ring,
      Real.sin_add_two_pi]

/-- C10: with one orbit, constant forcing and the zero state, the
derivative is exactly `(a*6, G, 0)` at every time. -/
theorem C10_zero_state (a b G t : ℝ) :
    (Lorenz84.init a b G Lorenz84.ForcingSpec.other 1)._equation [0, 0, 0] t
      = some [a * 6, G, 0] := by
  rw [equation_single _ Lorenz84.TimeForcing.constant rfl 0 0 0 t]
  norm_num [Lorenz84.init, Lorenz84.TimeForcing.constant]

end CDSK
